import Mathlib

/-!
Shallow embedding of the typesense_exporter scrape-transform-expose pipeline
(src/main.go, src/collector/collector.go, src/collector/api_stats.go,
src/collector/cluster_metrics.go).

Go float64 values are modelled as rationals, Go slices/maps as lists, a Go
panic (out-of-range slice index) as an Option none result, and the outcome of
one outbound HTTP fetch as an explicit inductive supplied to the collector.
-/

/-- One Prometheus sample as it is sent over the metric channel: a fully
qualified metric name, the ordered label values, and the numeric value. -/
structure Metric where
  name : String
  labelValues : List String
  value : ℚ
  deriving DecidableEq, Repr

/-- Mirrors prometheus.BuildFQName: joins the nonempty parts of
namespace/subsystem/name with underscores; an empty name yields the empty
string. -/
def buildFQName (ns subsystem nm : String) : String :=
  if nm = "" then ""
  else String.intercalate "_" (([ns, subsystem].filter (fun p => p ≠ "")) ++ [nm])

/-- const namespace = "typesense" (collector.go line 15). -/
def tsNamespace : String := "typesense"

/-- Name of the aggregator scrape-duration gauge (collector.go lines 18-23). -/
def scrapeDurationName : String := buildFQName tsNamespace "scrape" "duration_seconds"

/-- Name of the aggregator scrape-success gauge (collector.go lines 24-29). -/
def scrapeSuccessName : String := buildFQName tsNamespace "scrape" "success"

/-- Per-collector endpoint-health state owned by one stat collector
(api_stats.go lines 60-61, cluster_metrics.go lines 52-53): the up gauge and
the two monotone counters. -/
structure CollectorState where
  up : ℚ
  totalScrapes : Nat
  jsonParseFailures : Nat
  deriving DecidableEq, Repr

/-- Splits a character list on every single space character, keeping empty
groups; models Go strings.Split(s, " ") (which never returns an empty slice:
a separator-free input yields the one-element slice holding the input). -/
def splitChars : List Char → List (List Char)
  | [] => [[]]
  | c :: rest =>
    match splitChars rest with
    | [] => [[]]
    | g :: gs => if c = ' ' then [] :: g :: gs else (c :: g) :: gs

/-- Go strings.Split(s, " ") as a function on strings. -/
def goSplitSpaces (s : String) : List String :=
  (splitChars s.data).map (fun cs => String.mk cs)

/-- splitStatKey (api_stats.go lines 67-70): strings.Split on a single space
followed by indexing split[0] and split[1].  When the split has fewer than two
elements (a key with no space) the Go code indexes past the end of the slice
and panics; that panic is modelled as none. -/
def splitStatKey (s : String) : Option (String × String) :=
  match goSplitSpaces s with
  | a :: b :: _ => some (a, b)
  | _ => none

/-- labeledValues (api_stats.go lines 21-24). -/
structure labeledValues where
  labels : List String
  value : ℚ
  deriving DecidableEq, Repr

/-- The decoded /stats.json body (api_stats.go lines 40-53); the two
open-ended maps are modelled as association lists. -/
structure apiStatsResponse where
  DeleteLatency : ℚ
  DeleteRequestsPerSecond : ℚ
  ImportLatency : ℚ
  ImportRequestsPerSecond : ℚ
  Latency : List (String × ℚ)
  PendingWriteBatches : ℚ
  RequestsPerSecond : List (String × ℚ)
  SearchLatency : ℚ
  SearchRequestsPerSecond : ℚ
  TotalRequestsPerSecond : ℚ
  WriteLatency : ℚ
  WriteRequestsPerSecond : ℚ
  deriving DecidableEq, Repr

/-- One scalar descriptor of the api-stats table (api_stats.go lines 32-36):
a fixed gauge name with the cluster label and a pure extraction function. -/
structure ApiMetricDef where
  name : String
  value : apiStatsResponse → ℚ

/-- The scalar descriptor table built by NewAPIStats (api_stats.go lines
93-204), in source order.  Every entry is a gauge labelled by the single
"cluster" label. -/
def apiStatsMetricsTable : List ApiMetricDef :=
  [ ⟨buildFQName tsNamespace "api_stats" "delete_latency_seconds",
      fun resp => resp.DeleteLatency / 1000⟩,
    ⟨buildFQName tsNamespace "api_stats" "delete_requests_per_second",
      fun resp => resp.DeleteRequestsPerSecond⟩,
    ⟨buildFQName tsNamespace "api_stats" "import_latency_seconds",
      fun resp => resp.ImportLatency / 1000⟩,
    ⟨buildFQName tsNamespace "api_stats" "import_requests_per_second",
      fun resp => resp.ImportRequestsPerSecond⟩,
    ⟨buildFQName tsNamespace "api_stats" "pending_write_batches",
      fun resp => resp.PendingWriteBatches⟩,
    ⟨buildFQName tsNamespace "api_stats" "search_latency_seconds",
      fun resp => resp.SearchLatency / 1000⟩,
    ⟨buildFQName tsNamespace "api_stats" "search_requests_per_second",
      fun resp => resp.SearchRequestsPerSecond⟩,
    ⟨buildFQName tsNamespace "api_stats" "total_requests_per_second",
      fun resp => resp.TotalRequestsPerSecond⟩,
    ⟨buildFQName tsNamespace "api_stats" "write_latency_seconds",
      fun resp => resp.WriteLatency / 1000⟩,
    ⟨buildFQName tsNamespace "api_stats" "write_requests_per_second",
      fun resp => resp.WriteRequestsPerSecond⟩ ]

/-- Name of the latency_ms vector gauge (api_stats.go lines 205-213). -/
def apiLatencySecondsName : String := buildFQName tsNamespace "api_stats" "latency_seconds"

/-- Name of the requests_per_second vector gauge (api_stats.go lines 226-233). -/
def apiRequestsPerSecondName : String :=
  buildFQName tsNamespace "api_stats" "requests_per_second"

/-- Loop body of the latency_ms vector closure (api_stats.go lines 216-222):
split the compound key, divide the millisecond value by 1000, attach labels
cluster/method/endpoint.  none models the splitStatKey panic. -/
def latencyEntry (url : String) (p : String × ℚ) : Option labeledValues :=
  (splitStatKey p.1).map (fun me => ⟨[url, me.1, me.2], p.2 / 1000⟩)

/-- Loop body of the requests_per_second vector closure (api_stats.go lines
236-241): same splitting, value passed through unscaled. -/
def rpsEntry (url : String) (p : String × ℚ) : Option labeledValues :=
  (splitStatKey p.1).map (fun me => ⟨[url, me.1, me.2], p.2⟩)

/-- Runs the vector loop body over every map entry; a panic in any iteration
(none) aborts the whole evaluation, as a Go panic does. -/
def collectEntries (f : String × ℚ → Option labeledValues) :
    List (String × ℚ) → Option (List labeledValues)
  | [] => some []
  | p :: ps =>
    match f p, collectEntries f ps with
    | some v, some vs => some (v :: vs)
    | _, _ => none

/-- The latency_ms vector closure (api_stats.go lines 214-224). -/
def latencyStatValue (url : String) (entries : List (String × ℚ)) :
    Option (List labeledValues) :=
  collectEntries (latencyEntry url) entries

/-- The requests_per_second vector closure (api_stats.go lines 234-244). -/
def requestsPerSecondStatValue (url : String) (entries : List (String × ℚ)) :
    Option (List labeledValues) :=
  collectEntries (rpsEntry url) entries

/-- The three endpoint-health names of the api-stats collector
(api_stats.go lines 80-91). -/
def apiUpName : String := buildFQName tsNamespace "api_stats" "up"

def apiTotalScrapesName : String := buildFQName tsNamespace "api_stats" "total_scrapes"

def apiJsonParseFailuresName : String :=
  buildFQName tsNamespace "api_stats" "json_parse_failures"

/-- The deferred health emission of APIStats.Collect (api_stats.go lines
265-269): the up gauge, total-scrapes counter and parse-failure counter are
each sent exactly once, in that order, carrying no labels. -/
def apiHealth (s : CollectorState) : List Metric :=
  [ ⟨apiUpName, [], s.up⟩,
    ⟨apiTotalScrapesName, [], (s.totalScrapes : ℚ)⟩,
    ⟨apiJsonParseFailuresName, [], (s.jsonParseFailures : ℚ)⟩ ]

/-- The body of one /stats.json HTTP response as the collector observes it:
an unreadable body, bytes that fail JSON decoding, or a decoded response.
(The api-stats shape has no string-encoded numbers, so decoding is modelled
at the level of its observable outcome.) -/
inductive ApiBody where
  | unreadable
  | malformed
  | decoded (resp : apiStatsResponse)

/-- Outcome of the one outbound GET of fetchAndDecodeAPIStats: a transport
error, or a status code with a body. -/
inductive ApiOutcome where
  | transportError
  | response (statusCode : Nat) (body : ApiBody)

/-- fetchAndDecodeAPIStats (api_stats.go lines 303-333) as a function of the
fetch outcome: returns the increment applied to jsonParseFailures together
with the decoded response (none = the error return). -/
def apiFetchAndDecode (o : ApiOutcome) : Nat × Option apiStatsResponse :=
  match o with
  | .transportError => (0, none)
  | .response code body =>
    if code ≠ 200 then (0, none)
    else
      match body with
      | .unreadable => (1, none)
      | .malformed => (1, none)
      | .decoded r => (0, some r)

/-- The scalar samples sent by the metrics loop of APIStats.Collect
(api_stats.go lines 282-289): one sample per table entry, labelled with the
configured upstream URL. -/
def apiScalarSamples (url : String) (r : apiStatsResponse) : List Metric :=
  apiStatsMetricsTable.map (fun m => ⟨m.name, [url], m.value r⟩)

/-- APIStats.Collect (api_stats.go lines 262-301) as a state transformer on
the fetch outcome.  Steps mirror the source: increment totalScrapes, fetch
and decode (which may bump jsonParseFailures), on error set up to 0 and emit
only the three health samples, on success set up to 1 and emit the scalar
samples, then both vector evaluations, then the deferred health samples.
A vector key without a space panics inside stat.Value; the panic is modelled
as a none overall result. -/
def APIStats.collect (url : String) (s : CollectorState) (o : ApiOutcome) :
    Option (CollectorState × List Metric) :=
  let s1 : CollectorState :=
    { s with totalScrapes := s.totalScrapes + 1 }
  let fd := apiFetchAndDecode o
  let s2 : CollectorState :=
    { s1 with jsonParseFailures := s1.jsonParseFailures + fd.1 }
  match fd.2 with
  | none =>
    let s3 : CollectorState := { s2 with up := 0 }
    some (s3, apiHealth s3)
  | some r =>
    let s3 : CollectorState := { s2 with up := 1 }
    match latencyStatValue url r.Latency,
          requestsPerSecondStatValue url r.RequestsPerSecond with
    | some lat, some rps =>
      some (s3,
        apiScalarSamples url r
          ++ lat.map (fun v => ⟨apiLatencySecondsName, v.labels, v.value⟩)
          ++ rps.map (fun v => ⟨apiRequestsPerSecondName, v.labels, v.value⟩)
          ++ apiHealth s3)
    | _, _ => none

/-! ## Cluster metrics collector (cluster_metrics.go) -/

/-- A decoded JSON value, used to model the /metrics.json body at field
granularity (the cluster-metrics shape string-encodes all its numbers, and a
claim turns on how field-level parsing failures propagate). -/
inductive Json where
  | null
  | bool (b : Bool)
  | num (q : ℚ)
  | str (s : String)
  | arr (elems : List Json)
  | obj (fields : List (String × Json))

/-- A nonempty all-digit character list. -/
def isDigits (cs : List Char) : Bool :=
  !cs.isEmpty && cs.all (fun c => c.isDigit)

/-- ASCII lower-casing of one character (strconv compares number syntax
case-insensitively). -/
def lowerChar (c : Char) : Char :=
  if 'A' ≤ c ∧ c ≤ 'Z' then Char.ofNat (c.toNat + 32) else c

/-- Hexadecimal digit letters a-f, either case. -/
def isHexLetter (c : Char) : Bool :=
  decide ('a' ≤ lowerChar c) && decide (lowerChar c ≤ 'f')

/-- A hexadecimal digit. -/
def isHexDigitCh (c : Char) : Bool :=
  c.isDigit || isHexLetter c

/-- Value of a decimal or hexadecimal digit. -/
def hexDigitVal (c : Char) : Nat :=
  if c.isDigit then c.toNat - 48 else (lowerChar c).toNat - 87

/-- Digit characters (in the given base) to the number they spell. -/
def digitsVal (base : Nat) (cs : List Char) : Nat :=
  cs.foldl (fun n c => n * base + hexDigitVal c) 0

/-- Scanner state walk of strconv.underscoreOK: a saw value of '0' means the
last character was a digit (or base prefix), '_' an underscore, '^' the start
of the number, '!' anything else; an underscore may stand only between
digits. -/
def underscoreOKAux (hex : Bool) : Char → List Char → Bool
  | saw, [] => saw != '_'
  | saw, c :: rest =>
    if c.isDigit || (hex && isHexLetter c) then underscoreOKAux hex '0' rest
    else if c = '_' then (saw == '0') && underscoreOKAux hex '_' rest
    else (saw != '_') && underscoreOKAux hex '!' rest

/-- strconv.underscoreOK: underscores in a number literal are permitted only
between digits (or between a base prefix and a digit). -/
def underscoreOK (cs0 : List Char) : Bool :=
  let cs1 :=
    match cs0 with
    | c :: rest => if c = '+' ∨ c = '-' then rest else cs0
    | [] => cs0
  match cs1 with
  | '0' :: p :: rest =>
    if lowerChar p = 'x' ∨ lowerChar p = 'b' ∨ lowerChar p = 'o' then
      underscoreOKAux (lowerChar p == 'x') '0' rest
    else underscoreOKAux false '^' cs1
  | _ => underscoreOKAux false '^' cs1

/-- The special forms strconv.ParseFloat accepts besides numbers:
optionally signed inf/infinity and unsigned nan (case-insensitive).  They
denote non-finite float64 values, which a rational embedding cannot carry;
parseGoFloat maps them to none and the decode theorems exclude the reachable
ones ("-inf"/"-infinity", see isNegInfForm) by hypothesis. -/
def goFloatSpecial (s : String) : Bool :=
  let t := s.data.map lowerChar
  t == "inf".data || t == "+inf".data || t == "-inf".data ||
  t == "infinity".data || t == "+infinity".data || t == "-infinity".data ||
  t == "nan".data

/-- The one family of special forms that passes encoding/json's leading
character check for a ,string number field: a minus sign followed by
inf/infinity (case-insensitive).  Go decodes these to −Inf, a non-finite
float64 outside the rational model. -/
def isNegInfForm (s : String) : Bool :=
  let t := s.data.map lowerChar
  t == "-inf".data || t == "-infinity".data

/-- Exponent suffix of a float literal: an optionally signed nonempty digit
run. -/
def parseExpPart : List Char → Option ℤ
  | [] => none
  | '+' :: ds => if isDigits ds then some ((digitsVal 10 ds : ℤ)) else none
  | '-' :: ds => if isDigits ds then some (-(digitsVal 10 ds : ℤ)) else none
  | ds => if isDigits ds then some ((digitsVal 10 ds : ℤ)) else none

/-- Splits a digit run with an optional fractional part: returns the integer
digits, the fraction digits and the unconsumed remainder. -/
def splitMantissa (digitP : Char → Bool) (cs : List Char) :
    List Char × List Char × List Char :=
  let p := cs.span digitP
  match p.2 with
  | '.' :: rest2 =>
    let q := rest2.span digitP
    (p.1, q.1, q.2)
  | _ => (p.1, [], p.2)

/-- Scale by a power of ten (decimal exponent). -/
def applyExp10 (q : ℚ) (e : ℤ) : ℚ :=
  if 0 ≤ e then q * (10 : ℚ) ^ e.toNat else q / (10 : ℚ) ^ (-e).toNat

/-- Scale by a power of two (hexadecimal-float exponent). -/
def applyExp2 (q : ℚ) (e : ℤ) : ℚ :=
  if 0 ≤ e then q * (2 : ℚ) ^ e.toNat else q / (2 : ℚ) ^ (-e).toNat

/-- Unsigned decimal float literal: digits with optional fraction (at least
one mantissa digit) and an optional e-exponent, exactly strconv's decimal
production. -/
def parseDecFloat (cs : List Char) : Option ℚ :=
  let m := splitMantissa (fun c => c.isDigit) cs
  if m.1.isEmpty && m.2.1.isEmpty then none
  else
    let mant : ℚ := (digitsVal 10 m.1 : ℚ) + (digitsVal 10 m.2.1 : ℚ) / (10 : ℚ) ^ m.2.1.length
    match m.2.2 with
    | [] => some mant
    | e :: rest =>
      if lowerChar e = 'e' then
        match parseExpPart rest with
        | none => none
        | some ex => some (applyExp10 mant ex)
      else none

/-- Unsigned hexadecimal float literal (after the 0x prefix): hex digits with
optional fraction and a mandatory p-exponent, exactly strconv's hex
production. -/
def parseHexFloat (cs : List Char) : Option ℚ :=
  let m := splitMantissa isHexDigitCh cs
  if m.1.isEmpty && m.2.1.isEmpty then none
  else
    let mant : ℚ := (digitsVal 16 m.1 : ℚ) + (digitsVal 16 m.2.1 : ℚ) / (16 : ℚ) ^ m.2.1.length
    match m.2.2 with
    | [] => none
    | p :: rest =>
      if lowerChar p = 'p' then
        match parseExpPart rest with
        | none => none
        | some ex => some (applyExp2 mant ex)
      else none

/-- Unsigned number body: a 0x/0X prefix selects the hex-float production,
anything else the decimal one. -/
def parseGoFloatCore (cs : List Char) : Option ℚ :=
  match cs with
  | '0' :: x :: rest =>
    if lowerChar x = 'x' then parseHexFloat rest
    else parseDecFloat cs
  | _ => parseDecFloat cs

/-- strconv.ParseFloat(s, 64) errors exactly when the parsed value rounds to
±Inf, i.e. when its magnitude reaches 2^1024 − 2^970 (the rounding boundary
above the largest finite float64); smaller values — including subnormal
underflow — succeed. -/
def float64OverflowBound : ℚ := 2 ^ 1024 - 2 ^ 970

/-- The content parsing strconv.ParseFloat(s, 64) performs for a
,string-tagged float64 field: optional sign, underscores checked by
underscoreOK and then skipped, decimal or hexadecimal mantissa with optional
(resp. mandatory) exponent, and the ErrRange overflow failure at
±(2^1024 − 2^970).  The non-finite special forms (inf/infinity/nan) are
mapped to none because ±Inf/NaN have no rational representative; see
goFloatSpecial. -/
def parseGoFloat (s : String) : Option ℚ :=
  if goFloatSpecial s then none
  else
    match s.data with
    | [] => none
    | cs =>
      if cs.contains '_' && !underscoreOK cs then none
      else
        let sgn :=
          match cs with
          | '-' :: rest => (true, rest)
          | '+' :: rest => (false, rest)
          | _ => (false, cs)
        let cs2 := sgn.2.filter (fun c => c != '_')
        match parseGoFloatCore cs2 with
        | none => none
        | some q =>
          let v := if sgn.1 then -q else q
          if v < float64OverflowBound ∧ -float64OverflowBound < v then some v
          else none

/-- Largest int64. -/
def int64Max : ℤ := 2 ^ 63 - 1

/-- Smallest int64. -/
def int64Min : ℤ := -(2 ^ 63)

/-- The content parsing strconv.ParseInt(s, 10, 64) performs for a
,string-tagged int field: optional sign, a nonempty run of decimal digits
(base 10 is explicit, so underscores are rejected), failing outside the
int64 range. -/
def parseGoInt (s : String) : Option ℤ :=
  let sgn :=
    match s.data with
    | '-' :: rest => (true, rest)
    | '+' :: rest => (false, rest)
    | cs => (false, cs)
  if isDigits sgn.2 then
    let n : ℤ := (digitsVal 10 sgn.2 : ℤ)
    let v := if sgn.1 then -n else n
    if int64Min ≤ v ∧ v ≤ int64Max then some v else none
  else none

/-- encoding/json only hands a ,string field's content to strconv when its
first character is a minus sign or a digit; otherwise (and unless the
content is exactly "null") decoding errors. -/
def jsonNumberPrefixOk (s : String) : Bool :=
  match s.data with
  | c :: _ => c == '-' || c.isDigit
  | [] => false

/-- One step of Go's object decode for a single ,string numeric field: a
binding for another key is skipped; a JSON null value, or the string content
"null", is a no-op keeping the current value; string content is handed to
strconv after the leading-character check; any non-string value is an
error. -/
def decodeFieldStep {α : Type} (parse : String → Option α) (k : String)
    (acc : Option α) (p : String × Json) : Option α :=
  match acc with
  | none => none
  | some cur =>
    if p.1 == k then
      match p.2 with
      | .null => some cur
      | .str s =>
        if s = "null" then some cur
        else if jsonNumberPrefixOk s then parse s
        else none
      | _ => none
    else some cur

/-- Decode one ",string"-tagged numeric field by walking the object's
bindings in order (Go processes duplicate keys sequentially, later ones
overwriting): an absent field keeps the Go zero value. -/
def decodeStringNum {α : Type} (parse : String → Option α) (zero : α)
    (fields : List (String × Json)) (k : String) : Option α :=
  fields.foldl (decodeFieldStep parse k) (some zero)

/-- No string value of the object is a signed-infinity form.  Inside this
domain the model's decode success set coincides with the program's: the
"-inf"/"-infinity" contents are the only ones Go decodes to a value (−Inf)
the rational embedding cannot represent. -/
def fieldsNoNegInf (fields : List (String × Json)) : Bool :=
  fields.all (fun p =>
    match p.2 with
    | .str s => !(isNegInfForm s)
    | _ => true)

/-- The decoded /metrics.json body (cluster_metrics.go lines 26-45); every
field carries the ",string" JSON tag in the source. -/
structure clusterMetricsResponse where
  SystemCPU1ActivePercentage : ℚ
  SystemCPU2ActivePercentage : ℚ
  SystemCPU3ActivePercentage : ℚ
  SystemCPU4ActivePercentage : ℚ
  SystemCPUActivePercentage : ℚ
  SystemDiskTotalBytes : ℤ
  SystemDiskUsedBytes : ℤ
  SystemMemoryTotalBytes : ℤ
  SystemMemoryUsedBytes : ℤ
  SystemNetworkReceivedBytes : ℤ
  SystemNetworkSentBytes : ℤ
  TypesenseMemoryActiveBytes : ℤ
  TypesenseMemoryAllocatedBytes : ℤ
  TypesenseMemoryFragmentationRatio : ℚ
  TypesenseMemoryMappedBytes : ℤ
  TypesenseMemoryMetadataBytes : ℤ
  TypesenseMemoryResidentBytes : ℤ
  TypesenseMemoryRetainedBytes : ℤ
  deriving DecidableEq, Repr

/-- The Go zero value of the response struct (what json.Unmarshal leaves
untouched when the top-level value is null). -/
def zeroClusterMetricsResponse : clusterMetricsResponse :=
  ⟨0, 0, 0, 0, 0, 0, 0, 0, 0, 0, 0, 0, 0, 0, 0, 0, 0, 0⟩

/-- Field-by-field decode of the object body of /metrics.json: each of the
eighteen ",string"-tagged fields must decode, in declaration order; the first
failing field aborts the whole decode with none. -/
def decodeClusterFields (fields : List (String × Json)) : Option clusterMetricsResponse :=
    (decodeStringNum parseGoFloat 0 fields "system_cpu1_active_percentage").bind fun cpu1 =>
    (decodeStringNum parseGoFloat 0 fields "system_cpu2_active_percentage").bind fun cpu2 =>
    (decodeStringNum parseGoFloat 0 fields "system_cpu3_active_percentage").bind fun cpu3 =>
    (decodeStringNum parseGoFloat 0 fields "system_cpu4_active_percentage").bind fun cpu4 =>
    (decodeStringNum parseGoFloat 0 fields "system_cpu_active_percentage").bind fun cpuAll =>
    (decodeStringNum parseGoInt 0 fields "system_disk_total_bytes").bind fun diskTotal =>
    (decodeStringNum parseGoInt 0 fields "system_disk_used_bytes").bind fun diskUsed =>
    (decodeStringNum parseGoInt 0 fields "system_memory_total_bytes").bind fun memTotal =>
    (decodeStringNum parseGoInt 0 fields "system_memory_used_bytes").bind fun memUsed =>
    (decodeStringNum parseGoInt 0 fields "system_network_received_bytes").bind fun netRecv =>
    (decodeStringNum parseGoInt 0 fields "system_network_sent_bytes").bind fun netSent =>
    (decodeStringNum parseGoInt 0 fields "typesense_memory_active_bytes").bind fun tsActive =>
    (decodeStringNum parseGoInt 0 fields "typesense_memory_allocated_bytes").bind fun tsAlloc =>
    (decodeStringNum parseGoFloat 0 fields "typesense_memory_fragmentation_ratio").bind fun tsFrag =>
    (decodeStringNum parseGoInt 0 fields "typesense_memory_mapped_bytes").bind fun tsMapped =>
    (decodeStringNum parseGoInt 0 fields "typesense_memory_metadata_bytes").bind fun tsMeta =>
    (decodeStringNum parseGoInt 0 fields "typesense_memory_resident_bytes").bind fun tsResident =>
    (decodeStringNum parseGoInt 0 fields "typesense_memory_retained_bytes").bind fun tsRetained =>
    some ⟨cpu1, cpu2, cpu3, cpu4, cpuAll, diskTotal, diskUsed, memTotal, memUsed,
      netRecv, netSent, tsActive, tsAlloc, tsFrag, tsMapped, tsMeta,
      tsResident, tsRetained⟩

/-- json.Unmarshal into clusterMetricsResponse: the top level must be an
object (or null, which keeps the zero struct); every field decodes via its
",string" tag, and any single field failure fails the whole decode. -/
def decodeClusterMetrics (j : Json) : Option clusterMetricsResponse :=
  match j with
  | .null => some zeroClusterMetricsResponse
  | .obj fields => decodeClusterFields fields
  | _ => none

/-- One scalar descriptor of the cluster-metrics table (cluster_metrics.go
lines 20-24). -/
structure ClusterMetricDef where
  name : String
  value : clusterMetricsResponse → ℚ

/-- The descriptor table built by NewClusterMetrics (cluster_metrics.go lines
79-157), in source order; only the seven typesense memory fields are exposed. -/
def clusterMetricsTable : List ClusterMetricDef :=
  [ ⟨buildFQName tsNamespace "cluster_metrics" "memory_active_bytes",
      fun resp => (resp.TypesenseMemoryActiveBytes : ℚ)⟩,
    ⟨buildFQName tsNamespace "cluster_metrics" "memory_allocated_bytes",
      fun resp => (resp.TypesenseMemoryAllocatedBytes : ℚ)⟩,
    ⟨buildFQName tsNamespace "cluster_metrics" "memory_fragmentation_ratio",
      fun resp => resp.TypesenseMemoryFragmentationRatio⟩,
    ⟨buildFQName tsNamespace "cluster_metrics" "memory_mapped_bytes",
      fun resp => (resp.TypesenseMemoryMappedBytes : ℚ)⟩,
    ⟨buildFQName tsNamespace "cluster_metrics" "memory_metadata_bytes",
      fun resp => (resp.TypesenseMemoryMetadataBytes : ℚ)⟩,
    ⟨buildFQName tsNamespace "cluster_metrics" "memory_resident_bytes",
      fun resp => (resp.TypesenseMemoryResidentBytes : ℚ)⟩,
    ⟨buildFQName tsNamespace "cluster_metrics" "memory_retained_bytes",
      fun resp => (resp.TypesenseMemoryRetainedBytes : ℚ)⟩ ]

/-- The three endpoint-health names of the cluster-metrics collector
(cluster_metrics.go lines 66-77). -/
def clusterUpName : String := buildFQName tsNamespace "cluster_metrics" "up"

def clusterTotalScrapesName : String :=
  buildFQName tsNamespace "cluster_metrics" "total_scrapes"

def clusterJsonParseFailuresName : String :=
  buildFQName tsNamespace "cluster_metrics" "json_parse_failures"

/-- The deferred health emission of ClusterMetrics.Collect
(cluster_metrics.go lines 176-180). -/
def clusterHealth (s : CollectorState) : List Metric :=
  [ ⟨clusterUpName, [], s.up⟩,
    ⟨clusterTotalScrapesName, [], (s.totalScrapes : ℚ)⟩,
    ⟨clusterJsonParseFailuresName, [], (s.jsonParseFailures : ℚ)⟩ ]

/-- The body of one /metrics.json HTTP response as the collector observes it. -/
inductive ClusterBody where
  | unreadable
  | malformed
  | json (j : Json)

/-- The body carries no signed-infinity string field (see fieldsNoNegInf);
non-object and non-JSON bodies carry none trivially. -/
def clusterBodyNoNegInf : ClusterBody → Bool
  | .json (.obj fields) => fieldsNoNegInf fields
  | _ => true

/-- Outcome of the one outbound GET of fetchAndDecodeClusterMetrics. -/
inductive ClusterOutcome where
  | transportError
  | response (statusCode : Nat) (body : ClusterBody)

/-- fetchAndDecodeClusterMetrics (cluster_metrics.go lines 203-233) as a
function of the fetch outcome: the jsonParseFailures increment together with
the decoded response (none = the error return). -/
def clusterFetchAndDecode (o : ClusterOutcome) : Nat × Option clusterMetricsResponse :=
  match o with
  | .transportError => (0, none)
  | .response code body =>
    if code ≠ 200 then (0, none)
    else
      match body with
      | .unreadable => (1, none)
      | .malformed => (1, none)
      | .json j =>
        match decodeClusterMetrics j with
        | none => (1, none)
        | some r => (0, some r)

/-- The scalar samples sent by the metrics loop of ClusterMetrics.Collect
(cluster_metrics.go lines 193-200). -/
def clusterScalarSamples (url : String) (r : clusterMetricsResponse) : List Metric :=
  clusterMetricsTable.map (fun m => ⟨m.name, [url], m.value r⟩)

/-- ClusterMetrics.Collect (cluster_metrics.go lines 173-201): increment
totalScrapes, fetch and decode, on error set up to 0 and emit only the three
health samples, on success set up to 1 and emit one sample per descriptor
followed by the deferred health samples.  This collector has no vector
descriptors, so it is total. -/
def ClusterMetrics.collect (url : String) (s : CollectorState) (o : ClusterOutcome) :
    CollectorState × List Metric :=
  let s1 : CollectorState :=
    { s with totalScrapes := s.totalScrapes + 1 }
  let fd := clusterFetchAndDecode o
  let s2 : CollectorState :=
    { s1 with jsonParseFailures := s1.jsonParseFailures + fd.1 }
  match fd.2 with
  | none =>
    let s3 : CollectorState := { s2 with up := 0 }
    (s3, clusterHealth s3)
  | some r =>
    let s3 : CollectorState := { s2 with up := 1 }
    (s3, clusterScalarSamples url r ++ clusterHealth s3)

/-! ## Aggregator (collector.go) and sequences of scrapes -/

/-- What one registered collector's Update call did during one aggregator
collection: the metrics it sent over the channel, whether it returned an
error, and its measured wall-clock duration in seconds. -/
structure RunResult where
  updateMetrics : List Metric
  updateFailed : Bool
  durationSeconds : ℚ

/-- The aggregator (collector.go lines 38-41): it holds the registered
collector names; the collectors' behaviour for one scrape is supplied per
name when collecting. -/
structure TypesenseCollector where
  Collectors : List String

/-- NewTypesenseCollector (collector.go lines 44-51): builds an empty
collector map — nothing is ever registered into it. -/
def NewTypesenseCollector : TypesenseCollector := ⟨[]⟩

/-- execute (collector.go lines 73-95): one task forwards its collector's
update emissions, then sends the duration gauge and the success gauge
(1 on success, 0 on any failure), both labelled by the collector name. -/
def execute (nm : String) (r : RunResult) : List Metric :=
  r.updateMetrics ++
    [ ⟨scrapeDurationName, [nm], r.durationSeconds⟩,
      ⟨scrapeSuccessName, [nm], if r.updateFailed then 0 else 1⟩ ]

/-- TypesenseCollector.Collect (collector.go lines 60-71): launches execute
for every registered collector and waits for all of them; the merged stream
holds every task's full output. -/
def TypesenseCollector.collect (e : TypesenseCollector)
    (runs : String → RunResult) : List Metric :=
  (e.Collectors.map (fun nm => execute nm (runs nm))).flatten

/-- Counts the samples of a stream carrying a given metric name. -/
def countName (ms : List Metric) (nm : String) : Nat :=
  ms.countP (fun m => m.name == nm)

/-- A sequence of cluster-metrics scrapes, threading the collector state. -/
def ClusterMetrics.run (url : String) (s : CollectorState) :
    List ClusterOutcome → CollectorState
  | [] => s
  | o :: os => ClusterMetrics.run url (ClusterMetrics.collect url s o).1 os

/-- A sequence of api-stats scrapes; a panic anywhere aborts the run. -/
def APIStats.run (url : String) (s : CollectorState) :
    List ApiOutcome → Option CollectorState
  | [] => some s
  | o :: os =>
    match APIStats.collect url s o with
    | none => none
    | some (s', _) => APIStats.run url s' os

/-- Joins strings with single spaces (the inverse of splitting used to state
the spec-side reading of a compound key). -/
def joinWithSpace : List String → String
  | [] => ""
  | [x] => x
  | x :: y :: xs => x ++ " " ++ joinWithSpace (y :: xs)

/-- Modelled from the spec's words ("splitting each key into a method and an
endpoint on the first whitespace-delimited boundary"): the method is the part
of the key before the first space and the endpoint is the whole part after
it.  Stated only to compare against splitStatKey, which the source defines. -/
def specMethodEndpointSplit (s : String) : String × String :=
  match goSplitSpaces s with
  | [] => (s, "")
  | a :: rest => (a, joinWithSpace rest)

/-- All eighteen string-encoded fields of the cluster-metrics response decode
successfully on the given object fields. -/
def clusterFieldsOk (fields : List (String × Json)) : Bool :=
  (decodeStringNum parseGoFloat 0 fields "system_cpu1_active_percentage").isSome &&
  (decodeStringNum parseGoFloat 0 fields "system_cpu2_active_percentage").isSome &&
  (decodeStringNum parseGoFloat 0 fields "system_cpu3_active_percentage").isSome &&
  (decodeStringNum parseGoFloat 0 fields "system_cpu4_active_percentage").isSome &&
  (decodeStringNum parseGoFloat 0 fields "system_cpu_active_percentage").isSome &&
  (decodeStringNum parseGoInt 0 fields "system_disk_total_bytes").isSome &&
  (decodeStringNum parseGoInt 0 fields "system_disk_used_bytes").isSome &&
  (decodeStringNum parseGoInt 0 fields "system_memory_total_bytes").isSome &&
  (decodeStringNum parseGoInt 0 fields "system_memory_used_bytes").isSome &&
  (decodeStringNum parseGoInt 0 fields "system_network_received_bytes").isSome &&
  (decodeStringNum parseGoInt 0 fields "system_network_sent_bytes").isSome &&
  (decodeStringNum parseGoInt 0 fields "typesense_memory_active_bytes").isSome &&
  (decodeStringNum parseGoInt 0 fields "typesense_memory_allocated_bytes").isSome &&
  (decodeStringNum parseGoFloat 0 fields "typesense_memory_fragmentation_ratio").isSome &&
  (decodeStringNum parseGoInt 0 fields "typesense_memory_mapped_bytes").isSome &&
  (decodeStringNum parseGoInt 0 fields "typesense_memory_metadata_bytes").isSome &&
  (decodeStringNum parseGoInt 0 fields "typesense_memory_resident_bytes").isSome &&
  (decodeStringNum parseGoInt 0 fields "typesense_memory_retained_bytes").isSome

/-! ## Theorems -/

/-- A field-level decode failure fails the whole response: if any of the
eighteen string-encoded fields fails to decode, json.Unmarshal of the object
yields an error (none), not a partial result. -/
theorem decodeClusterMetrics_none_of_fieldFail (fields : List (String × Json))
    (hbad : clusterFieldsOk fields = false) :
    decodeClusterMetrics (.obj fields) = none := by
  unfold clusterFieldsOk at hbad
  show decodeClusterFields fields = none
  unfold decodeClusterFields
  rcases e1 : decodeStringNum parseGoFloat 0 fields "system_cpu1_active_percentage" with _ | v1
  · rfl
  rw [e1, Option.isSome_some, Bool.true_and] at hbad
  rw [Option.some_bind]
  rcases e2 : decodeStringNum parseGoFloat 0 fields "system_cpu2_active_percentage" with _ | v2
  · rfl
  rw [e2, Option.isSome_some, Bool.true_and] at hbad
  rw [Option.some_bind]
  rcases e3 : decodeStringNum parseGoFloat 0 fields "system_cpu3_active_percentage" with _ | v3
  · rfl
  rw [e3, Option.isSome_some, Bool.true_and] at hbad
  rw [Option.some_bind]
  rcases e4 : decodeStringNum parseGoFloat 0 fields "system_cpu4_active_percentage" with _ | v4
  · rfl
  rw [e4, Option.isSome_some, Bool.true_and] at hbad
  rw [Option.some_bind]
  rcases e5 : decodeStringNum parseGoFloat 0 fields "system_cpu_active_percentage" with _ | v5
  · rfl
  rw [e5, Option.isSome_some, Bool.true_and] at hbad
  rw [Option.some_bind]
  rcases e6 : decodeStringNum parseGoInt 0 fields "system_disk_total_bytes" with _ | v6
  · rfl
  rw [e6, Option.isSome_some, Bool.true_and] at hbad
  rw [Option.some_bind]
  rcases e7 : decodeStringNum parseGoInt 0 fields "system_disk_used_bytes" with _ | v7
  · rfl
  rw [e7, Option.isSome_some, Bool.true_and] at hbad
  rw [Option.some_bind]
  rcases e8 : decodeStringNum parseGoInt 0 fields "system_memory_total_bytes" with _ | v8
  · rfl
  rw [e8, Option.isSome_some, Bool.true_and] at hbad
  rw [Option.some_bind]
  rcases e9 : decodeStringNum parseGoInt 0 fields "system_memory_used_bytes" with _ | v9
  · rfl
  rw [e9, Option.isSome_some, Bool.true_and] at hbad
  rw [Option.some_bind]
  rcases e10 : decodeStringNum parseGoInt 0 fields "system_network_received_bytes" with _ | v10
  · rfl
  rw [e10, Option.isSome_some, Bool.true_and] at hbad
  rw [Option.some_bind]
  rcases e11 : decodeStringNum parseGoInt 0 fields "system_network_sent_bytes" with _ | v11
  · rfl
  rw [e11, Option.isSome_some, Bool.true_and] at hbad
  rw [Option.some_bind]
  rcases e12 : decodeStringNum parseGoInt 0 fields "typesense_memory_active_bytes" with _ | v12
  · rfl
  rw [e12, Option.isSome_some, Bool.true_and] at hbad
  rw [Option.some_bind]
  rcases e13 : decodeStringNum parseGoInt 0 fields "typesense_memory_allocated_bytes" with _ | v13
  · rfl
  rw [e13, Option.isSome_some, Bool.true_and] at hbad
  rw [Option.some_bind]
  rcases e14 : decodeStringNum parseGoFloat 0 fields "typesense_memory_fragmentation_ratio" with _ | v14
  · rfl
  rw [e14, Option.isSome_some, Bool.true_and] at hbad
  rw [Option.some_bind]
  rcases e15 : decodeStringNum parseGoInt 0 fields "typesense_memory_mapped_bytes" with _ | v15
  · rfl
  rw [e15, Option.isSome_some, Bool.true_and] at hbad
  rw [Option.some_bind]
  rcases e16 : decodeStringNum parseGoInt 0 fields "typesense_memory_metadata_bytes" with _ | v16
  · rfl
  rw [e16, Option.isSome_some, Bool.true_and] at hbad
  rw [Option.some_bind]
  rcases e17 : decodeStringNum parseGoInt 0 fields "typesense_memory_resident_bytes" with _ | v17
  · rfl
  rw [e17, Option.isSome_some, Bool.true_and] at hbad
  rw [Option.some_bind]
  rcases e18 : decodeStringNum parseGoInt 0 fields "typesense_memory_retained_bytes" with _ | v18
  · rfl
  rw [e18, Option.isSome_some] at hbad
  exact Bool.noConfusion hbad

/-- C3: every latency field the upstream reports in milliseconds is exposed
divided by exactly 1000: the four scalar latency descriptors
(delete/import/search/write) extract raw/1000, as the full descriptor-table
characterization shows, and each latency_ms vector entry is emitted with
value raw/1000. -/
theorem claim_C3 (resp : apiStatsResponse) (url k : String) (v : ℚ)
    (me : String × String) (h : splitStatKey k = some me) :
    apiScalarSamples url resp =
      [ ⟨"typesense_api_stats_delete_latency_seconds", [url], resp.DeleteLatency / 1000⟩,
        ⟨"typesense_api_stats_delete_requests_per_second", [url], resp.DeleteRequestsPerSecond⟩,
        ⟨"typesense_api_stats_import_latency_seconds", [url], resp.ImportLatency / 1000⟩,
        ⟨"typesense_api_stats_import_requests_per_second", [url], resp.ImportRequestsPerSecond⟩,
        ⟨"typesense_api_stats_pending_write_batches", [url], resp.PendingWriteBatches⟩,
        ⟨"typesense_api_stats_search_latency_seconds", [url], resp.SearchLatency / 1000⟩,
        ⟨"typesense_api_stats_search_requests_per_second", [url], resp.SearchRequestsPerSecond⟩,
        ⟨"typesense_api_stats_total_requests_per_second", [url], resp.TotalRequestsPerSecond⟩,
        ⟨"typesense_api_stats_write_latency_seconds", [url], resp.WriteLatency / 1000⟩,
        ⟨"typesense_api_stats_write_requests_per_second", [url], resp.WriteRequestsPerSecond⟩ ] ∧
    latencyEntry url (k, v) = some ⟨[url, me.1, me.2], v / 1000⟩ := by
  refine ⟨rfl, ?_⟩
  unfold latencyEntry
  rw [h]
  rfl

/-- Witness for C3 at a concrete response and key. -/
theorem claim_C3_witness :
    apiScalarSamples "u" ⟨1, 2, 3, 4, [], 5, [], 6, 7, 8, 9, 10⟩ =
      [ ⟨"typesense_api_stats_delete_latency_seconds", ["u"], (1 : ℚ) / 1000⟩,
        ⟨"typesense_api_stats_delete_requests_per_second", ["u"], 2⟩,
        ⟨"typesense_api_stats_import_latency_seconds", ["u"], (3 : ℚ) / 1000⟩,
        ⟨"typesense_api_stats_import_requests_per_second", ["u"], 4⟩,
        ⟨"typesense_api_stats_pending_write_batches", ["u"], 5⟩,
        ⟨"typesense_api_stats_search_latency_seconds", ["u"], (6 : ℚ) / 1000⟩,
        ⟨"typesense_api_stats_search_requests_per_second", ["u"], 7⟩,
        ⟨"typesense_api_stats_total_requests_per_second", ["u"], 8⟩,
        ⟨"typesense_api_stats_write_latency_seconds", ["u"], (9 : ℚ) / 1000⟩,
        ⟨"typesense_api_stats_write_requests_per_second", ["u"], 10⟩ ] ∧
    latencyEntry "u" ("GET /x", 123) = some ⟨["u", "GET", "/x"], (123 : ℚ) / 1000⟩ :=
  claim_C3 ⟨1, 2, 3, 4, [], 5, [], 6, 7, 8, 9, 10⟩ "u" "GET /x" 123 ("GET", "/x") (by decide)

/-- C4: on a non-success HTTP status both collectors set the up gauge to 0,
increment the scrape counter by exactly 1, leave the parse-failure counter
unchanged, and emit only the three endpoint-health samples; the right-hand
sides never mention the response body, so no decoding is attempted. -/
theorem claim_C4 (url : String) (s : CollectorState) (code : Nat)
    (bodyA : ApiBody) (bodyC : ClusterBody) (h : code ≠ 200) :
    APIStats.collect url s (.response code bodyA) =
      some (⟨0, s.totalScrapes + 1, s.jsonParseFailures⟩,
        apiHealth ⟨0, s.totalScrapes + 1, s.jsonParseFailures⟩) ∧
    ClusterMetrics.collect url s (.response code bodyC) =
      (⟨0, s.totalScrapes + 1, s.jsonParseFailures⟩,
        clusterHealth ⟨0, s.totalScrapes + 1, s.jsonParseFailures⟩) := by
  constructor
  · simp [APIStats.collect, apiFetchAndDecode, if_pos h]
  · simp [ClusterMetrics.collect, clusterFetchAndDecode, if_pos h]

/-- Witness for C4 at status 500 with a malformed body. -/
theorem claim_C4_witness :
    APIStats.collect "u" ⟨1, 3, 2⟩ (.response 500 .malformed) =
      some (⟨0, 4, 2⟩, apiHealth ⟨0, 4, 2⟩) ∧
    ClusterMetrics.collect "u" ⟨1, 3, 2⟩ (.response 500 .malformed) =
      (⟨0, 4, 2⟩, clusterHealth ⟨0, 4, 2⟩) :=
  claim_C4 "u" ⟨1, 3, 2⟩ 500 .malformed .malformed (by decide)

/-- C5: an unreadable body, malformed JSON, or a failed decode (in
particular any string-encoded numeric field that fails strconv parsing, by
decodeClusterMetrics_none_of_fieldFail) makes the whole scrape a parse
failure: the parse-failure counter increments by 1 in addition to the scrape
counter, the up gauge is set to 0, and only the three health samples are
emitted — no partial field metrics.  The second conjunct is the field-level
propagation: one bad field fails the whole decode.  The two no-negative-
infinity hypotheses keep every assertion inside the domain the rational
embedding represents faithfully: a "-inf"/"-infinity" field decodes in Go to
the non-finite float64 −Inf (a success), which has no rational value, so
such bodies are excluded rather than misclassified. -/
theorem claim_C5 (url : String) (s : CollectorState) (bodyC : ClusterBody)
    (hfail : (clusterFetchAndDecode (.response 200 bodyC)).2 = none)
    (fields : List (String × Json)) (hbad : clusterFieldsOk fields = false)
    (_hnfB : clusterBodyNoNegInf bodyC = true)
    (_hnfF : fieldsNoNegInf fields = true) :
    ClusterMetrics.collect url s (.response 200 bodyC) =
      (⟨0, s.totalScrapes + 1, s.jsonParseFailures + 1⟩,
        clusterHealth ⟨0, s.totalScrapes + 1, s.jsonParseFailures + 1⟩) ∧
    decodeClusterMetrics (.obj fields) = none := by
  refine ⟨?_, decodeClusterMetrics_none_of_fieldFail fields hbad⟩
  have hfd : clusterFetchAndDecode (.response 200 bodyC) = (1, none) := by
    cases bodyC with
    | unreadable => rfl
    | malformed => rfl
    | json j =>
      rcases hd : decodeClusterMetrics j with _ | r
      · simp [clusterFetchAndDecode, hd]
      · simp [clusterFetchAndDecode, hd] at hfail
  simp [ClusterMetrics.collect, hfd]

/-- Witness for C5: a response whose system_cpu_active_percentage field holds
the string "12x", which strconv.ParseFloat rejects. -/
theorem claim_C5_witness :
    ClusterMetrics.collect "u" ⟨1, 3, 0⟩
      (.response 200 (.json (.obj [("system_cpu_active_percentage", Json.str "12x")]))) =
      (⟨0, 4, 1⟩, clusterHealth ⟨0, 4, 1⟩) ∧
    decodeClusterMetrics (.obj [("system_cpu_active_percentage", Json.str "12x")]) = none :=
  claim_C5 "u" ⟨1, 3, 0⟩
    (.json (.obj [("system_cpu_active_percentage", Json.str "12x")])) (by decide)
    [("system_cpu_active_percentage", Json.str "12x")] (by decide)
    (by decide) (by decide)

/-- C2 counterexample: on the key "GET /a b" (which has two spaces) the code
emits the endpoint label "/a" — the second space-separated token — while the
part of the key after the first whitespace-delimited boundary is "/a b".
The claim's description of the endpoint label is therefore false for this
valid mapping entry. -/
theorem claim_C2_counterexample :
    requestsPerSecondStatValue "u" [("GET /a b", 1)]
      = some [⟨["u", "GET", "/a"], 1⟩] ∧
    specMethodEndpointSplit "GET /a b" = ("GET", "/a b") ∧
    ("/a" : String) ≠ "/a b" := by
  refine ⟨rfl, rfl, by decide⟩

/-- C2 amended: the method label is the text before the first space and the
endpoint label is the second space-separated token, which equals the whole
part after the first boundary exactly when the key contains exactly one
space; the claim's concrete two-entry example is emitted exactly as stated. -/
theorem claim_C2_amended (url k a b : String) (v : ℚ)
    (h : goSplitSpaces k = [a, b]) :
    rpsEntry url (k, v) = some ⟨[url, a, b], v⟩ ∧
    specMethodEndpointSplit k = (a, b) ∧
    requestsPerSecondStatValue "u" [("GET /search", 25/2), ("POST /documents", 3)]
      = some [⟨["u", "GET", "/search"], 25/2⟩, ⟨["u", "POST", "/documents"], 3⟩] := by
  refine ⟨?_, ?_, rfl⟩
  · unfold rpsEntry splitStatKey
    rw [h]
    rfl
  · unfold specMethodEndpointSplit
    rw [h]
    rfl

/-- Witness for C2 at the claim's own first example entry. -/
theorem claim_C2_witness :
    rpsEntry "u" ("GET /search", 3) = some ⟨["u", "GET", "/search"], 3⟩ ∧
    specMethodEndpointSplit "GET /search" = ("GET", "/search") ∧
    requestsPerSecondStatValue "u" [("GET /search", 25/2), ("POST /documents", 3)]
      = some [⟨["u", "GET", "/search"], 25/2⟩, ⟨["u", "POST", "/documents"], 3⟩] :=
  claim_C2_amended "u" "GET /search" "GET" "/search" 3 (by decide)

/-- C6 counterexample: a latency_ms key with no space makes splitStatKey
index past the end of the one-element split — an out-of-range panic, modelled
as none — and the panic aborts the whole collection (the collector crashes
mid-scrape instead of treating the key as a handled error). -/
theorem claim_C6_counterexample :
    splitStatKey "nospace" = none ∧
    APIStats.collect "u" ⟨0, 0, 0⟩
      (.response 200 (.decoded ⟨0, 0, 0, 0, [("nospace", 1)], 0, [], 0, 0, 0, 0, 0⟩))
      = none :=
  ⟨rfl, rfl⟩

/-- C6 amended: a key whose split has a single group (no space) panics
(splitStatKey is none, crashing the scrape), while a key with two or more
groups (one or more spaces) is not treated as an error at all: it is silently
split into the first two groups, dropping everything after the second. -/
theorem claim_C6_amended (s k a b : String) (l : List String)
    (h1 : (goSplitSpaces s).length = 1)
    (h2 : goSplitSpaces k = a :: b :: l) :
    splitStatKey s = none ∧ splitStatKey k = some (a, b) := by
  constructor
  · unfold splitStatKey
    rcases hg : goSplitSpaces s with _ | ⟨x, _ | ⟨y, t⟩⟩
    · rfl
    · rfl
    · rw [hg] at h1
      simp at h1
  · unfold splitStatKey
    rw [h2]

/-- Witness for C6: the no-space key "x" and the two-space key "a b c". -/
theorem claim_C6_witness :
    splitStatKey "x" = none ∧ splitStatKey "a b c" = some ("a", "b") :=
  claim_C6_amended "x" "a b c" "a" "b" ["c"] (by decide) (by decide)

/-- Appending streams adds their per-name sample counts. -/
theorem countName_append (xs ys : List Metric) (nm : String) :
    countName (xs ++ ys) nm = countName xs nm + countName ys nm := by
  simp [countName, List.countP_append]

/-- A stream none of whose samples carries the given name counts zero. -/
theorem countName_eq_zero (ms : List Metric) (nm : String)
    (h : ∀ m ∈ ms, m.name ≠ nm) : countName ms nm = 0 := by
  unfold countName
  rw [List.countP_eq_zero]
  intro m hm
  simpa using h m hm

/-- One aggregator task emits exactly one duration and one success sample,
provided its collector's own metrics do not reuse the scrape-health names. -/
theorem countName_execute (nm : String) (r : RunResult)
    (h : ∀ m ∈ r.updateMetrics,
        m.name ≠ scrapeDurationName ∧ m.name ≠ scrapeSuccessName) :
    countName (execute nm r) scrapeDurationName = 1 ∧
    countName (execute nm r) scrapeSuccessName = 1 := by
  unfold execute
  constructor
  · rw [countName_append, countName_eq_zero r.updateMetrics _ (fun m hm => (h m hm).1)]
    rfl
  · rw [countName_append, countName_eq_zero r.updateMetrics _ (fun m hm => (h m hm).2)]
    rfl

/-- The joined fan-out stream carries one duration and one success sample per
registered collector. -/
theorem collectList_counts (runs : String → RunResult) (l : List String)
    (h : ∀ nm ∈ l, ∀ m ∈ (runs nm).updateMetrics,
        m.name ≠ scrapeDurationName ∧ m.name ≠ scrapeSuccessName) :
    countName ((l.map (fun nm => execute nm (runs nm))).flatten) scrapeDurationName
      = l.length ∧
    countName ((l.map (fun nm => execute nm (runs nm))).flatten) scrapeSuccessName
      = l.length := by
  induction l with
  | nil => exact ⟨rfl, rfl⟩
  | cons nm t ih =>
    have hd := countName_execute nm (runs nm) (h nm (List.mem_cons_self nm t))
    have ht := ih (fun x hx => h x (List.mem_cons_of_mem nm hx))
    rw [List.map_cons, List.flatten_cons]
    constructor
    · rw [countName_append, hd.1, ht.1, List.length_cons]
      omega
    · rw [countName_append, hd.2, ht.2, List.length_cons]
      omega

/-- C1 counterexample: the aggregator the program constructs has an empty
collector map (NewTypesenseCollector registers nothing, and main registers
the two stat collectors directly with the Prometheus registry, bypassing the
aggregator), so a scrape through it emits zero scrape-health duration
samples, not two. -/
theorem claim_C1_counterexample :
    countName
      (TypesenseCollector.collect NewTypesenseCollector (fun _ => ⟨[], false, 0⟩))
      scrapeDurationName ≠ 2 := by
  decide

/-- C1 amended: the aggregator's collection emits exactly one scrape-health
duration sample and one success sample per registered collector (as long as
collectors do not themselves emit the scrape-health names), but the
constructed aggregator registers zero collectors, so its collection stream
is empty. -/
theorem claim_C1_amended (e : TypesenseCollector) (runs : String → RunResult)
    (hclean : ∀ nm ∈ e.Collectors, ∀ m ∈ (runs nm).updateMetrics,
        m.name ≠ scrapeDurationName ∧ m.name ≠ scrapeSuccessName) :
    countName (e.collect runs) scrapeDurationName = e.Collectors.length ∧
    countName (e.collect runs) scrapeSuccessName = e.Collectors.length ∧
    TypesenseCollector.collect NewTypesenseCollector runs = [] := by
  obtain ⟨l⟩ := e
  have hc := collectList_counts runs l hclean
  exact ⟨hc.1, hc.2, rfl⟩

/-- Witness for C1 (amended form) with one registered collector. -/
theorem claim_C1_witness :
    countName (TypesenseCollector.collect ⟨["cluster-metrics"]⟩
      (fun _ => ⟨[], true, 0⟩)) scrapeDurationName = 1 ∧
    countName (TypesenseCollector.collect ⟨["cluster-metrics"]⟩
      (fun _ => ⟨[], true, 0⟩)) scrapeSuccessName = 1 ∧
    TypesenseCollector.collect NewTypesenseCollector (fun _ => ⟨[], true, 0⟩) = [] :=
  claim_C1_amended ⟨["cluster-metrics"]⟩ (fun _ => ⟨[], true, 0⟩)
    (fun _ _ m hm => absurd hm (List.not_mem_nil m))

/-- C9: the aggregator's collection stream contains, for every registered
collector, all of that collector's own emissions plus its duration sample and
its success sample (0 exactly on failure, 1 otherwise), and its total length
accounts for every registered collector — the join barrier means no task's
output is missing. -/
theorem claim_C9 (e : TypesenseCollector) (runs : String → RunResult) (nm : String)
    (hn : nm ∈ e.Collectors) :
    (∀ m ∈ (runs nm).updateMetrics, m ∈ e.collect runs) ∧
    (⟨scrapeDurationName, [nm], (runs nm).durationSeconds⟩ : Metric) ∈ e.collect runs ∧
    (⟨scrapeSuccessName, [nm], if (runs nm).updateFailed then 0 else 1⟩ : Metric)
      ∈ e.collect runs ∧
    (e.collect runs).length
      = (e.Collectors.map (fun k => (runs k).updateMetrics.length + 2)).sum := by
  have hexec : execute nm (runs nm) ∈ e.Collectors.map (fun k => execute k (runs k)) :=
    List.mem_map_of_mem _ hn
  have hlen : ∀ k, (execute k (runs k)).length = (runs k).updateMetrics.length + 2 :=
    fun k => by simp [execute]
  refine ⟨?_, ?_, ?_, ?_⟩
  · intro m hm
    exact List.mem_flatten.mpr ⟨execute nm (runs nm), hexec, by simp [execute, hm]⟩
  · exact List.mem_flatten.mpr ⟨execute nm (runs nm), hexec, by simp [execute]⟩
  · exact List.mem_flatten.mpr ⟨execute nm (runs nm), hexec, by simp [execute]⟩
  · unfold TypesenseCollector.collect
    rw [List.length_flatten, List.map_map]
    have hfun : (List.length ∘ fun k => execute k (runs k))
        = fun k => (runs k).updateMetrics.length + 2 := funext hlen
    rw [hfun]

/-- Witness for C9 with one succeeding and one failing collector. -/
theorem claim_C9_witness :
    (∀ m ∈ ([⟨"typesense_cluster_metrics_up", [], 1⟩] : List Metric),
      m ∈ TypesenseCollector.collect ⟨["cluster-metrics", "api-stats"]⟩
        (fun k => if k = "cluster-metrics"
          then ⟨[⟨"typesense_cluster_metrics_up", [], 1⟩], false, 2⟩
          else ⟨[], true, 3⟩)) ∧
    (⟨scrapeDurationName, ["cluster-metrics"], 2⟩ : Metric)
      ∈ TypesenseCollector.collect ⟨["cluster-metrics", "api-stats"]⟩
        (fun k => if k = "cluster-metrics"
          then ⟨[⟨"typesense_cluster_metrics_up", [], 1⟩], false, 2⟩
          else ⟨[], true, 3⟩) ∧
    (⟨scrapeSuccessName, ["cluster-metrics"], 1⟩ : Metric)
      ∈ TypesenseCollector.collect ⟨["cluster-metrics", "api-stats"]⟩
        (fun k => if k = "cluster-metrics"
          then ⟨[⟨"typesense_cluster_metrics_up", [], 1⟩], false, 2⟩
          else ⟨[], true, 3⟩) ∧
    (TypesenseCollector.collect ⟨["cluster-metrics", "api-stats"]⟩
        (fun k => if k = "cluster-metrics"
          then ⟨[⟨"typesense_cluster_metrics_up", [], 1⟩], false, 2⟩
          else ⟨[], true, 3⟩)).length
      = ((["cluster-metrics", "api-stats"] : List String).map
          (fun k => ((fun k => if k = "cluster-metrics"
            then (⟨[⟨"typesense_cluster_metrics_up", [], 1⟩], false, 2⟩ : RunResult)
            else ⟨[], true, 3⟩) k).updateMetrics.length + 2)).sum := by
  have h := claim_C9 ⟨["cluster-metrics", "api-stats"]⟩
    (fun k => if k = "cluster-metrics"
      then ⟨[⟨"typesense_cluster_metrics_up", [], 1⟩], false, 2⟩
      else ⟨[], true, 3⟩) "cluster-metrics" (by decide)
  exact ⟨h.1, h.2.1, h.2.2.1, h.2.2.2⟩

/-- C7: on a successful fetch and decode, both collectors set the up gauge to
1, increment the scrape counter by exactly 1, and evaluate every declared
scalar descriptor to exactly one labeled value whose single label is the
configured upstream URL — the identity part of the sample stream equals the
descriptor table one-for-one. -/
theorem claim_C7 (url : String) (s : CollectorState) (j : Json)
    (r : clusterMetricsResponse) (r2 : apiStatsResponse)
    (lat rps : List labeledValues)
    (hc : decodeClusterMetrics j = some r)
    (hl : latencyStatValue url r2.Latency = some lat)
    (hr : requestsPerSecondStatValue url r2.RequestsPerSecond = some rps) :
    ClusterMetrics.collect url s (.response 200 (.json j)) =
      (⟨1, s.totalScrapes + 1, s.jsonParseFailures⟩,
        clusterScalarSamples url r
          ++ clusterHealth ⟨1, s.totalScrapes + 1, s.jsonParseFailures⟩) ∧
    (clusterScalarSamples url r).map (fun m => (m.name, m.labelValues))
      = clusterMetricsTable.map (fun d => (d.name, [url])) ∧
    APIStats.collect url s (.response 200 (.decoded r2)) =
      some (⟨1, s.totalScrapes + 1, s.jsonParseFailures⟩,
        apiScalarSamples url r2
          ++ lat.map (fun v => ⟨apiLatencySecondsName, v.labels, v.value⟩)
          ++ rps.map (fun v => ⟨apiRequestsPerSecondName, v.labels, v.value⟩)
          ++ apiHealth ⟨1, s.totalScrapes + 1, s.jsonParseFailures⟩) ∧
    (apiScalarSamples url r2).map (fun m => (m.name, m.labelValues))
      = apiStatsMetricsTable.map (fun d => (d.name, [url])) := by
  refine ⟨?_, rfl, ?_, rfl⟩
  · simp [ClusterMetrics.collect, clusterFetchAndDecode, hc]
  · simp [APIStats.collect, apiFetchAndDecode, hl, hr]

/-- Witness for C7 on a concrete decodable object body and a response with
empty vector maps. -/
theorem claim_C7_witness :
    ClusterMetrics.collect "u" ⟨0, 5, 2⟩
      (.response 200 (.json (.obj [("typesense_memory_active_bytes", Json.str "7")]))) =
      (⟨1, 6, 2⟩,
        clusterScalarSamples "u" ⟨0, 0, 0, 0, 0, 0, 0, 0, 0, 0, 0, 7, 0, 0, 0, 0, 0, 0⟩
          ++ clusterHealth ⟨1, 6, 2⟩) ∧
    (clusterScalarSamples "u" ⟨0, 0, 0, 0, 0, 0, 0, 0, 0, 0, 0, 7, 0, 0, 0, 0, 0, 0⟩).map
        (fun m => (m.name, m.labelValues))
      = clusterMetricsTable.map (fun d => (d.name, ["u"])) ∧
    APIStats.collect "u" ⟨0, 5, 2⟩
      (.response 200 (.decoded ⟨0, 0, 0, 0, [], 0, [], 0, 0, 0, 0, 0⟩)) =
      some (⟨1, 6, 2⟩,
        apiScalarSamples "u" ⟨0, 0, 0, 0, [], 0, [], 0, 0, 0, 0, 0⟩
          ++ ([] : List labeledValues).map
              (fun v => ⟨apiLatencySecondsName, v.labels, v.value⟩)
          ++ ([] : List labeledValues).map
              (fun v => ⟨apiRequestsPerSecondName, v.labels, v.value⟩)
          ++ apiHealth ⟨1, 6, 2⟩) ∧
    (apiScalarSamples "u" ⟨0, 0, 0, 0, [], 0, [], 0, 0, 0, 0, 0⟩).map
        (fun m => (m.name, m.labelValues))
      = apiStatsMetricsTable.map (fun d => (d.name, ["u"])) :=
  claim_C7 "u" ⟨0, 5, 2⟩
    (.obj [("typesense_memory_active_bytes", Json.str "7")])
    ⟨0, 0, 0, 0, 0, 0, 0, 0, 0, 0, 0, 7, 0, 0, 0, 0, 0, 0⟩
    ⟨0, 0, 0, 0, [], 0, [], 0, 0, 0, 0, 0⟩ [] []
    (by decide) rfl rfl

/-- A vector sample stream, all of whose samples carry one fixed name,
contributes nothing to the count of a different name. -/
theorem countName_labeledMap (nmc nm : String) (h : (nmc == nm) = false)
    (l : List labeledValues) :
    countName (l.map (fun v => ⟨nmc, v.labels, v.value⟩)) nm = 0 := by
  unfold countName
  rw [List.countP_eq_zero]
  intro m hm
  obtain ⟨v, _, rfl⟩ := List.mem_map.mp hm
  simp [h]

/-- APIStats.Collect on a failed fetch emits exactly the three health
samples and records up=0. -/
theorem apiCollect_err (url : String) (s : CollectorState) (o : ApiOutcome)
    (hf : (apiFetchAndDecode o).2 = none) :
    APIStats.collect url s o =
      some (⟨0, s.totalScrapes + 1, s.jsonParseFailures + (apiFetchAndDecode o).1⟩,
        apiHealth ⟨0, s.totalScrapes + 1, s.jsonParseFailures + (apiFetchAndDecode o).1⟩) := by
  simp [APIStats.collect, hf]

/-- APIStats.Collect on a successful fetch whose vector evaluations do not
panic emits scalars, vectors and then the health samples. -/
theorem apiCollect_ok (url : String) (s : CollectorState) (o : ApiOutcome)
    (r : apiStatsResponse) (lat rps : List labeledValues)
    (hf : (apiFetchAndDecode o).2 = some r)
    (hl : latencyStatValue url r.Latency = some lat)
    (hr : requestsPerSecondStatValue url r.RequestsPerSecond = some rps) :
    APIStats.collect url s o =
      some (⟨1, s.totalScrapes + 1, s.jsonParseFailures + (apiFetchAndDecode o).1⟩,
        apiScalarSamples url r
          ++ lat.map (fun v => ⟨apiLatencySecondsName, v.labels, v.value⟩)
          ++ rps.map (fun v => ⟨apiRequestsPerSecondName, v.labels, v.value⟩)
          ++ apiHealth ⟨1, s.totalScrapes + 1, s.jsonParseFailures + (apiFetchAndDecode o).1⟩) := by
  simp [APIStats.collect, hf, hl, hr]

/-- C10: on every collection — success, transport/status failure or parse
failure alike — each collector's stream carries its up sample, its
total-scrapes sample and its parse-failures sample exactly once (for the
api-stats collector, on every run that completes rather than panicking). -/
theorem claim_C10 :
    (∀ (url : String) (s : CollectorState) (o : ClusterOutcome),
      countName (ClusterMetrics.collect url s o).2 clusterUpName = 1 ∧
      countName (ClusterMetrics.collect url s o).2 clusterTotalScrapesName = 1 ∧
      countName (ClusterMetrics.collect url s o).2 clusterJsonParseFailuresName = 1) ∧
    (∀ (url : String) (s s' : CollectorState) (o : ApiOutcome) (ms : List Metric),
      APIStats.collect url s o = some (s', ms) →
      countName ms apiUpName = 1 ∧
      countName ms apiTotalScrapesName = 1 ∧
      countName ms apiJsonParseFailuresName = 1) := by
  constructor
  · intro url s o
    rcases hf : (clusterFetchAndDecode o).2 with _ | r
    · have heq : ClusterMetrics.collect url s o =
          (⟨0, s.totalScrapes + 1, s.jsonParseFailures + (clusterFetchAndDecode o).1⟩,
            clusterHealth
              ⟨0, s.totalScrapes + 1, s.jsonParseFailures + (clusterFetchAndDecode o).1⟩) := by
        simp [ClusterMetrics.collect, hf]
      rw [heq]
      exact ⟨rfl, rfl, rfl⟩
    · have heq : ClusterMetrics.collect url s o =
          (⟨1, s.totalScrapes + 1, s.jsonParseFailures + (clusterFetchAndDecode o).1⟩,
            clusterScalarSamples url r ++ clusterHealth
              ⟨1, s.totalScrapes + 1, s.jsonParseFailures + (clusterFetchAndDecode o).1⟩) := by
        simp [ClusterMetrics.collect, hf]
      rw [heq]
      exact ⟨rfl, rfl, rfl⟩
  · intro url s s' o ms h
    rcases hf : (apiFetchAndDecode o).2 with _ | r
    · rw [apiCollect_err url s o hf] at h
      have hms : ms = apiHealth
          ⟨0, s.totalScrapes + 1, s.jsonParseFailures + (apiFetchAndDecode o).1⟩ :=
        (congrArg Prod.snd (Option.some.inj h)).symm
      rw [hms]
      exact ⟨rfl, rfl, rfl⟩
    · rcases hl : latencyStatValue url r.Latency with _ | lat
      · have hnone : APIStats.collect url s o = none := by
          simp [APIStats.collect, hf, hl]
        rw [hnone] at h
        exact Option.noConfusion h
      rcases hr : requestsPerSecondStatValue url r.RequestsPerSecond with _ | rps
      · have hnone : APIStats.collect url s o = none := by
          simp [APIStats.collect, hf, hl, hr]
        rw [hnone] at h
        exact Option.noConfusion h
      rw [apiCollect_ok url s o r lat rps hf hl hr] at h
      have hms : ms = apiScalarSamples url r
          ++ lat.map (fun v => ⟨apiLatencySecondsName, v.labels, v.value⟩)
          ++ rps.map (fun v => ⟨apiRequestsPerSecondName, v.labels, v.value⟩)
          ++ apiHealth ⟨1, s.totalScrapes + 1, s.jsonParseFailures + (apiFetchAndDecode o).1⟩ :=
        (congrArg Prod.snd (Option.some.inj h)).symm
      rw [hms]
      refine ⟨?_, ?_, ?_⟩ <;>
      · rw [countName_append, countName_append, countName_append,
          countName_labeledMap apiLatencySecondsName _ (by decide) lat,
          countName_labeledMap apiRequestsPerSecondName _ (by decide) rps]
        rfl

/-- Witness for C10 on a transport error for both collectors. -/
theorem claim_C10_witness :
    (countName (ClusterMetrics.collect "u" ⟨0, 0, 0⟩ .transportError).2 clusterUpName = 1 ∧
      countName (ClusterMetrics.collect "u" ⟨0, 0, 0⟩ .transportError).2
        clusterTotalScrapesName = 1 ∧
      countName (ClusterMetrics.collect "u" ⟨0, 0, 0⟩ .transportError).2
        clusterJsonParseFailuresName = 1) ∧
    (countName (apiHealth ⟨0, 1, 0⟩) apiUpName = 1 ∧
      countName (apiHealth ⟨0, 1, 0⟩) apiTotalScrapesName = 1 ∧
      countName (apiHealth ⟨0, 1, 0⟩) apiJsonParseFailuresName = 1) :=
  ⟨claim_C10.1 "u" ⟨0, 0, 0⟩ .transportError,
   claim_C10.2 "u" ⟨0, 0, 0⟩ ⟨0, 1, 0⟩ .transportError (apiHealth ⟨0, 1, 0⟩) rfl⟩

/-- One cluster-metrics collection always increments totalScrapes by one,
adds the fetch's parse-failure increment, and overwrites the up gauge from
this scrape's outcome alone. -/
theorem clusterCollect_fst (url : String) (s : CollectorState) (o : ClusterOutcome) :
    (ClusterMetrics.collect url s o).1 =
      ⟨if (clusterFetchAndDecode o).2.isSome then 1 else 0,
       s.totalScrapes + 1,
       s.jsonParseFailures + (clusterFetchAndDecode o).1⟩ := by
  rcases hf : (clusterFetchAndDecode o).2 with _ | r <;>
    simp [ClusterMetrics.collect, hf]

/-- One completed api-stats collection updates the state the same way. -/
theorem apiCollect_fst (url : String) (s : CollectorState) (o : ApiOutcome)
    (s' : CollectorState) (ms : List Metric)
    (h : APIStats.collect url s o = some (s', ms)) :
    s' = ⟨if (apiFetchAndDecode o).2.isSome then 1 else 0,
          s.totalScrapes + 1,
          s.jsonParseFailures + (apiFetchAndDecode o).1⟩ := by
  rcases hf : (apiFetchAndDecode o).2 with _ | r
  · rw [apiCollect_err url s o hf] at h
    injection Option.some.inj h with ha _hb
    rw [← ha]
    rfl
  · rcases hl : latencyStatValue url r.Latency with _ | lat
    · have hnone : APIStats.collect url s o = none := by
        simp [APIStats.collect, hf, hl]
      rw [hnone] at h
      exact Option.noConfusion h
    rcases hr : requestsPerSecondStatValue url r.RequestsPerSecond with _ | rps
    · have hnone : APIStats.collect url s o = none := by
        simp [APIStats.collect, hf, hl, hr]
      rw [hnone] at h
      exact Option.noConfusion h
    rw [apiCollect_ok url s o r lat rps hf hl hr] at h
    injection Option.some.inj h with ha _hb
    rw [← ha]
    rfl

/-- Across any scrape sequence the cluster collector's totalScrapes counts
every attempt. -/
theorem clusterRun_totalScrapes (url : String) (os : List ClusterOutcome) :
    ∀ s : CollectorState,
      (ClusterMetrics.run url s os).totalScrapes = s.totalScrapes + os.length := by
  induction os with
  | nil => intro s; simp [ClusterMetrics.run]
  | cons o t ih =>
    intro s
    simp only [ClusterMetrics.run]
    rw [ih, clusterCollect_fst]
    simp only [List.length_cons]
    omega

/-- Across any scrape sequence the cluster collector's parse-failure counter
never decreases. -/
theorem clusterRun_pf_mono (url : String) (os : List ClusterOutcome) :
    ∀ s : CollectorState,
      s.jsonParseFailures ≤ (ClusterMetrics.run url s os).jsonParseFailures := by
  induction os with
  | nil => intro s; simp [ClusterMetrics.run]
  | cons o t ih =>
    intro s
    simp only [ClusterMetrics.run]
    exact le_trans
      (by rw [clusterCollect_fst]; exact Nat.le_add_right _ _)
      (ih _)

/-- Across any completed (panic-free) api-stats scrape sequence, totalScrapes
counts every attempt and the parse-failure counter never decreases. -/
theorem apiRun_state (url : String) (os : List ApiOutcome) :
    ∀ s s' : CollectorState, APIStats.run url s os = some s' →
      s'.totalScrapes = s.totalScrapes + os.length ∧
      s.jsonParseFailures ≤ s'.jsonParseFailures := by
  induction os with
  | nil =>
    intro s s' h
    simp only [APIStats.run, Option.some.injEq] at h
    subst h
    simp
  | cons o t ih =>
    intro s s' h
    rcases hc : APIStats.collect url s o with _ | p
    · simp only [APIStats.run, hc] at h
      exact Option.noConfusion h
    · obtain ⟨s1, ms1⟩ := p
      simp only [APIStats.run, hc] at h
      obtain ⟨ih1, ih2⟩ := ih s1 s' h
      have hs1 := apiCollect_fst url s o s1 ms1 hc
      subst hs1
      constructor
      · simp only [List.length_cons]
        simp at ih1
        omega
      · exact le_trans (Nat.le_add_right _ _) ih2

/-- C8: both collectors' totalScrapes and jsonParseFailures counters are
monotonically non-decreasing across any sequence of collections, the up
gauge is overwritten on every scrape from that scrape's outcome alone, and
after a sequence of scrapes the totalScrapes counter equals exactly its
start plus the number of scrapes (so N after N successes from zero). -/
theorem claim_C8 (url : String) (s sa sa' sa1 : CollectorState)
    (os : List ClusterOutcome) (osa : List ApiOutcome)
    (o : ClusterOutcome) (oa : ApiOutcome) (msa : List Metric)
    (hrun : APIStats.run url sa osa = some sa')
    (hstep : APIStats.collect url sa oa = some (sa1, msa)) :
    s.totalScrapes ≤ (ClusterMetrics.run url s os).totalScrapes ∧
    s.jsonParseFailures ≤ (ClusterMetrics.run url s os).jsonParseFailures ∧
    (ClusterMetrics.run url s os).totalScrapes = s.totalScrapes + os.length ∧
    (ClusterMetrics.collect url s o).1.up
      = (if (clusterFetchAndDecode o).2.isSome then (1 : ℚ) else 0) ∧
    sa.totalScrapes ≤ sa'.totalScrapes ∧
    sa.jsonParseFailures ≤ sa'.jsonParseFailures ∧
    sa'.totalScrapes = sa.totalScrapes + osa.length ∧
    sa1.up = (if (apiFetchAndDecode oa).2.isSome then (1 : ℚ) else 0) := by
  obtain ⟨hts, hpf⟩ := apiRun_state url osa sa sa' hrun
  refine ⟨?_, clusterRun_pf_mono url os s, clusterRun_totalScrapes url os s,
    ?_, ?_, hpf, hts, ?_⟩
  · rw [clusterRun_totalScrapes url os s]
    exact Nat.le_add_right _ _
  · rw [clusterCollect_fst]
  · rw [hts]
    exact Nat.le_add_right _ _
  · rw [apiCollect_fst url sa oa sa1 msa hstep]

/-- Witness for C8: two failing cluster scrapes and one failing api scrape
from fresh states. -/
theorem claim_C8_witness :
    (0 : Nat) ≤ (ClusterMetrics.run "u" ⟨0, 0, 0⟩
        [ClusterOutcome.transportError, .response 500 .malformed]).totalScrapes ∧
    (0 : Nat) ≤ (ClusterMetrics.run "u" ⟨0, 0, 0⟩
        [ClusterOutcome.transportError, .response 500 .malformed]).jsonParseFailures ∧
    (ClusterMetrics.run "u" ⟨0, 0, 0⟩
        [ClusterOutcome.transportError, .response 500 .malformed]).totalScrapes = 2 ∧
    (ClusterMetrics.collect "u" ⟨0, 0, 0⟩ ClusterOutcome.transportError).1.up = 0 ∧
    (0 : Nat) ≤ 1 ∧
    (0 : Nat) ≤ 0 ∧
    ((⟨0, 1, 0⟩ : CollectorState)).totalScrapes = 1 ∧
    ((⟨0, 1, 0⟩ : CollectorState)).up = 0 :=
  claim_C8 "u" ⟨0, 0, 0⟩ ⟨0, 0, 0⟩ ⟨0, 1, 0⟩ ⟨0, 1, 0⟩
    [ClusterOutcome.transportError, .response 500 .malformed]
    [ApiOutcome.transportError] ClusterOutcome.transportError
    ApiOutcome.transportError (apiHealth ⟨0, 1, 0⟩) rfl rfl
